import Mathlib

/-!
Verification of the crop-type asset pipeline
(`fields/update_field_crop_type_by_state.py` and
`fields/export_field_crop_type_by_state.py`).

The Python scripts are shallowly embedded: the per-feature shapefile write
step (`write_features`), the California Crop Mapping low-coverage pre-filter,
the composite merge pass, the overwrite clearing pass, the CDL coverage table
(`cdl_year_states`), the CDL annual-crop remap default filling, the CDL
source-selection `if/elif` chain, and the per-(state, year) export submission
decision (task-snapshot / bucket skip logic).
-/

namespace CropAssets

/-- One shapefile feature restricted to a single year's columns: the
`OPENET_ID` key, the `CROP_<year>` integer field and the `CSRC_<year>`
string field (`update_field_crop_type_by_state.py`). -/
structure Feature where
  openetId : String
  crop : Int
  csrc : String
deriving DecidableEq, Repr

/-- The result of attempting `int(values[crop_type_field])` on an incoming
record cell: either the parsed integer, or a parse failure (missing column,
NaN from the CSV, non-numeric text), which the `except` clause in
`write_features` turns into 0. -/
inductive RawCrop where
  | intVal : Int → RawCrop
  | noParse : RawCrop
deriving DecidableEq, Repr

/-- `try: new_crop_type = int(...) except: new_crop_type = 0`
(`update_field_crop_type_by_state.py`, lines 384-387). -/
def parseCrop : RawCrop → Int
  | .intVal n => n
  | .noParse => 0

/-- One row of a downloaded stats CSV keyed by `OPENET_ID`: the raw
`CROP_<year>` cell, the `CSRC_<year>` cell (`none` models a missing column,
turned into `''` by the `except` clause at lines 388-391), and the
`PIXEL_COUNT` / `PIXEL_TOTAL` cells used only by the California Crop
Mapping (cadwr) pre-filter. -/
structure ResultRecord where
  cropRaw : RawCrop
  csrcVal : Option String
  pixelCount : ℚ
  pixelTotal : ℚ
deriving DecidableEq, Repr

/-- The body of the feature loop of `write_features`
(`update_field_crop_type_by_state.py`, lines 375-399) for one feature:
look the feature's `OPENET_ID` up in the result-record mapping
(`KeyError` → feature untouched), parse the incoming crop type and source,
then skip when the incoming crop type is 0, skip when the current value is
positive and overwrite is off, and otherwise write both fields. -/
def writeFeature (features : String → Option ResultRecord) (overwrite : Bool)
    (ftr : Feature) : Feature :=
  match features ftr.openetId with
  | none => ftr
  | some values =>
      let newCropType : Int := parseCrop values.cropRaw
      let newCropSrc : String := values.csrcVal.getD ""
      if newCropType = 0 then ftr
      else if ftr.crop > 0 ∧ overwrite = false then ftr
      else { ftr with crop := newCropType, csrc := newCropSrc }

/-- `write_features(shp_path, features, year, overwrite)` restricted to the
given year's columns: every feature of the layer is processed independently
by the loop body (`update_field_crop_type_by_state.py`, lines 368-400). -/
def write_features (features : String → Option ResultRecord) (overwrite : Bool)
    (layer : List Feature) : List Feature :=
  layer.map (writeFeature features overwrite)

/-- Applying the no-overwrite write step twice to one feature is the same as
applying it once: the first application either leaves the feature alone or
makes its crop equal to the (nonzero) incoming value, and in both cases the
second application rewrites nothing new. -/
theorem writeFeature_idem (features : String → Option ResultRecord) (ftr : Feature) :
    writeFeature features false (writeFeature features false ftr)
      = writeFeature features false ftr := by
  obtain ⟨id, c, s⟩ := ftr
  unfold writeFeature
  cases h : features id with
  | none => simp [h]
  | some v =>
      by_cases h0 : parseCrop v.cropRaw = 0
      · simp [h, h0]
      · by_cases hc : c > 0
        · simp [h, h0, hc]
        · simp [h, h0, hc]

/-- C1: in the per-feature write step, an incoming record whose crop-type
value parses to 0 (including unparseable values, which are treated as 0)
leaves the feature's `CROP_<year>` and `CSRC_<year>` fields unchanged,
whatever the overwrite flag is. -/
theorem incoming_zero_never_writes (features : String → Option ResultRecord)
    (overwrite : Bool) (ftr : Feature) (r : ResultRecord)
    (hlookup : features ftr.openetId = some r)
    (hzero : parseCrop r.cropRaw = 0) :
    writeFeature features overwrite ftr = ftr := by
  unfold writeFeature
  simp [hlookup, hzero]

/-- Witness for C1: a feature holding crop value 150 keeps both fields when a
record with crop-type 0 arrives under overwrite. -/
theorem incoming_zero_never_writes_witness :
    writeFeature
      (fun k => if k = "F1" then some ⟨RawCrop.intVal 0, some "newsrc", 0, 0⟩ else none)
      true ⟨"F1", 150, "oldsrc"⟩ = ⟨"F1", 150, "oldsrc"⟩ :=
  incoming_zero_never_writes
    (fun k => if k = "F1" then some ⟨RawCrop.intVal 0, some "newsrc", 0, 0⟩ else none)
    true ⟨"F1", 150, "oldsrc"⟩ ⟨RawCrop.intVal 0, some "newsrc", 0, 0⟩ (by decide) rfl

/-- C2: merge idempotence — applying the write step twice with overwrite
disabled, with the same result-record mapping, yields the same layer as
applying it once. -/
theorem merge_idempotent (features : String → Option ResultRecord)
    (layer : List Feature) :
    write_features features false (write_features features false layer)
      = write_features features false layer := by
  unfold write_features
  rw [List.map_map]
  induction layer with
  | nil => rfl
  | cons hd tl ih =>
      simp only [List.map_cons, List.cons.injEq]
      exact ⟨writeFeature_idem features hd, by simpa [List.map_map] using ih⟩

/-- The keep-condition of the California Crop Mapping pre-filter
(`update_field_crop_type_by_state.py`, lines 284-288): a record is kept
only when `PIXEL_TOTAL > 0` and `PIXEL_COUNT / PIXEL_TOTAL >= 0.50`. -/
def cadwrKeep (r : ResultRecord) : Bool :=
  decide (r.pixelTotal > 0) && decide (r.pixelCount / r.pixelTotal ≥ (0.50 : ℚ))

/-- The dict comprehension
`{k: v for k, v in update_features.items() if ((v['PIXEL_TOTAL'] > 0) and
(v['PIXEL_COUNT'] / v['PIXEL_TOTAL']) >= 0.50)}` as a transformation of the
keyed record mapping. -/
def cadwrFilterMap (features : String → Option ResultRecord) :
    String → Option ResultRecord :=
  fun k =>
    match features k with
    | some r => if cadwrKeep r then some r else none
    | none => none

/-- C3: a California Crop Mapping record whose pixel coverage ratio is below
0.50 (division by a zero `PIXEL_TOTAL` yields ratio 0, so `PIXEL_TOTAL = 0`
records are included) is removed by the pre-filter, and so the write step —
even with overwrite enabled — leaves any feature keyed to it unchanged. -/
theorem low_coverage_never_merged (features : String → Option ResultRecord)
    (overwrite : Bool) (ftr : Feature) (r : ResultRecord)
    (hlookup : features ftr.openetId = some r)
    (hlow : r.pixelCount / r.pixelTotal < (0.50 : ℚ)) :
    cadwrFilterMap features ftr.openetId = none
      ∧ writeFeature (cadwrFilterMap features) overwrite ftr = ftr := by
  have hkeep : cadwrKeep r = false := by
    unfold cadwrKeep
    by_cases htot : r.pixelTotal > 0
    · have : ¬ (r.pixelCount / r.pixelTotal ≥ (0.50 : ℚ)) := not_le.mpr hlow
      simp [this]
    · simp [htot]
  have hnone : cadwrFilterMap features ftr.openetId = none := by
    unfold cadwrFilterMap
    simp [hlookup, hkeep]
  refine ⟨hnone, ?_⟩
  unfold writeFeature
  simp [hnone]

/-- Witness for C3: a record with 1 of 3 pixels covered (ratio 1/3 < 0.50)
is dropped and the feature keeps its existing value even under overwrite. -/
theorem low_coverage_never_merged_witness :
    cadwrFilterMap
        (fun k => if k = "F1" then some ⟨RawCrop.intVal 5, some "cadwr", 1, 3⟩ else none)
        "F1" = none
      ∧ writeFeature
          (cadwrFilterMap
            (fun k => if k = "F1" then some ⟨RawCrop.intVal 5, some "cadwr", 1, 3⟩ else none))
          true ⟨"F1", 150, "oldsrc"⟩ = ⟨"F1", 150, "oldsrc"⟩ :=
  low_coverage_never_merged
    (fun k => if k = "F1" then some ⟨RawCrop.intVal 5, some "cadwr", 1, 3⟩ else none)
    true ⟨"F1", 150, "oldsrc"⟩ ⟨RawCrop.intVal 5, some "cadwr", 1, 3⟩
    (by decide) (by norm_num)

/-- The second California merge pass — "update any missing values with the
CA/CDL composite values" — always calls
`write_features(shp_path, update_features, year, overwrite=False)`
(`update_field_crop_type_by_state.py`, line 365), ignoring the run's
`overwrite_flag`. -/
def compositeWritePass (overwriteFlag : Bool)
    (features : String → Option ResultRecord) (layer : List Feature) :
    List Feature :=
  write_features features false layer

/-- C9 counterexample: the claim says a feature whose `CROP_<year>` is
already non-zero is left unchanged by the composite pass.  The code's guard
is `crop_type > 0`, not `crop_type != 0`: a feature whose current crop value
is the non-zero value -1 is overwritten by an incoming composite record. -/
theorem composite_nonzero_overwritten :
    (⟨"F1", -1, "oldsrc"⟩ : Feature).crop ≠ 0
      ∧ compositeWritePass true
          (fun k => if k = "F1" then some ⟨RawCrop.intVal 5, some "comp", 0, 0⟩ else none)
          [⟨"F1", -1, "oldsrc"⟩]
        ≠ [⟨"F1", -1, "oldsrc"⟩] := by
  constructor
  · decide
  · unfold compositeWritePass write_features writeFeature
    simp [parseCrop]

/-- C9 (amended): the composite pass invokes the write step with overwrite
disabled regardless of the caller's overwrite flag, and every feature whose
`CROP_<year>` value is strictly positive is left unchanged by it, so
composite values can only fill fields that are not currently positive. -/
theorem composite_never_overwrites_positive (overwriteFlag : Bool)
    (features : String → Option ResultRecord) (layer : List Feature)
    (ftr : Feature) (hpos : 0 < ftr.crop) :
    compositeWritePass overwriteFlag features layer
        = layer.map (writeFeature features false)
      ∧ writeFeature features false ftr = ftr := by
  refine ⟨rfl, ?_⟩
  unfold writeFeature
  cases h : features ftr.openetId with
  | none => rfl
  | some v =>
      by_cases h0 : parseCrop v.cropRaw = 0
      · simp [h0]
      · simp [h0, hpos]

/-- Witness for C9 (amended): a feature already holding crop value 150 is
untouched by the composite pass even when the caller requested overwrite. -/
theorem composite_never_overwrites_positive_witness :
    compositeWritePass true
        (fun k => if k = "F1" then some ⟨RawCrop.intVal 5, some "comp", 0, 0⟩ else none)
        [⟨"F1", 150, "oldsrc"⟩]
      = [⟨"F1", 150, "oldsrc"⟩].map
          (writeFeature
            (fun k => if k = "F1" then some ⟨RawCrop.intVal 5, some "comp", 0, 0⟩ else none)
            false)
      ∧ writeFeature
          (fun k => if k = "F1" then some ⟨RawCrop.intVal 5, some "comp", 0, 0⟩ else none)
          false ⟨"F1", 150, "oldsrc"⟩ = ⟨"F1", 150, "oldsrc"⟩ :=
  composite_never_overwrites_positive true
    (fun k => if k = "F1" then some ⟨RawCrop.intVal 5, some "comp", 0, 0⟩ else none)
    [⟨"F1", 150, "oldsrc"⟩] ⟨"F1", 150, "oldsrc"⟩ (by decide)

/-- The overwrite clearing pass (`update_field_crop_type_by_state.py`,
lines 134-144): `SetField(CROP_<year>, 0)` and `SetField(CSRC_<year>, '')`
for every feature, restricted to one year's columns. -/
def clearFeature (ftr : Feature) : Feature :=
  { ftr with crop := 0, csrc := "" }

/-- The per-state processing of `main` projected onto one selected year's
columns: when `overwrite_flag` is set, every feature's `CROP_<year>` and
`CSRC_<year>` are first cleared (lines 134-144; all selected years are
cleared before any merging starts), and then, only if a stats file for that
year was obtained, `write_features` runs for that year (lines 157-211; the
write passes for other years do not touch this year's two columns). -/
def statePassForYear (overwriteFlag : Bool)
    (resultFile : Option (String → Option ResultRecord))
    (layer : List Feature) : List Feature :=
  let cleared := if overwriteFlag then layer.map clearFeature else layer
  match resultFile with
  | some features => write_features features overwriteFlag cleared
  | none => cleared

/-- C10: with overwrite set, the run clears every feature's `CROP_<year>`
and `CSRC_<year>` before any merging, so a selected year for which no result
file is obtained ends the run cleared (crop 0, empty source), not with its
previous values. -/
theorem overwrite_clears_unmerged_years (layer : List Feature) :
    statePassForYear true none layer = layer.map clearFeature
      ∧ (statePassForYear true none layer).all
          (fun f => f.crop == 0 && f.csrc == "") = true := by
  refine ⟨rfl, ?_⟩
  simp only [statePassForYear, if_pos rfl, List.all_eq_true]
  intro f hf
  rcases List.mem_map.mp hf with ⟨a, _, rfl⟩
  simp [clearFeature]

/-- Explicit CDL coverage list for 2007
(`export_field_crop_type_by_state.py`, lines 91-93). -/
def cdlStates2007 : List String :=
  ["AR", "IA", "ID", "IL", "IN", "KS", "LA", "MI",
   "MN", "MO", "MS", "MT", "ND", "NE", "OH", "OK", "OR",
   "SD", "WA", "WI"]

/-- Explicit CDL coverage list for 2006 (lines 94-95). -/
def cdlStates2006 : List String :=
  ["AR", "IA", "IL", "IN", "KS", "LA", "MN", "MO",
   "MS", "ND", "NE", "OH", "OK", "SD", "WI"]

/-- Explicit CDL coverage list for 2005 (line 96). -/
def cdlStates2005 : List String :=
  ["AR", "IA", "IL", "IN", "MO", "MS", "ND", "NE", "WI"]

/-- Explicit CDL coverage list for 2004 (line 97). -/
def cdlStates2004 : List String :=
  ["AR", "FL", "IA", "IL", "IN", "MO", "MS", "ND", "NE", "WI"]

/-- Explicit CDL coverage list for 2003 (line 98). -/
def cdlStates2003 : List String :=
  ["AR", "IA", "IL", "IN", "MO", "MS", "ND", "NE", "WI"]

/-- Explicit CDL coverage list for 2002 (lines 99-100). -/
def cdlStates2002 : List String :=
  ["AR", "IA", "IL", "IN", "MO", "MS", "ND", "NE",
   "NC", "VA", "WV", "MD", "DE", "PA", "NJ", "NY", "CT", "RI"]

/-- Explicit CDL coverage list for 2001 (line 101). -/
def cdlStates2001 : List String :=
  ["AR", "IA", "IL", "IN", "MO", "MS", "ND", "NE"]

/-- Explicit CDL coverage list for 2000 (line 102). -/
def cdlStates2000 : List String :=
  ["AR", "IA", "IL", "IN", "MS", "ND"]

/-- Explicit CDL coverage list for 1999 (line 103). -/
def cdlStates1999 : List String :=
  ["AR", "IL", "MS", "ND"]

/-- Explicit CDL coverage list for 1998 and 1997 (lines 104-105). -/
def cdlStates1998 : List String := ["ND"]

/-- The historical override lists keyed by year (1997-2007); any other year
maps to the empty list. -/
def historicalStates (year : Nat) : List String :=
  if year = 2007 then cdlStates2007
  else if year = 2006 then cdlStates2006
  else if year = 2005 then cdlStates2005
  else if year = 2004 then cdlStates2004
  else if year = 2003 then cdlStates2003
  else if year = 2002 then cdlStates2002
  else if year = 2001 then cdlStates2001
  else if year = 2000 then cdlStates2000
  else if year = 1999 then cdlStates1999
  else if year = 1998 ∨ year = 1997 then cdlStates1998
  else []

/-- The `cdl_year_states` dict (`export_field_crop_type_by_state.py`,
lines 90-105): keys 2008..2024 map to the run's state list (the dict
comprehension over `range(cdl_year_min, cdl_year_max+1)`), keys 1997..2007
map to the explicit override lists, and every other year is absent. -/
def cdl_year_states (states : List String) (year : Nat) :
    Option (List String) :=
  if 2008 ≤ year ∧ year ≤ 2024 then some states
  else if 1997 ≤ year ∧ year ≤ 2007 then some (historicalStates year)
  else none

/-- Coverage query on the table: is (state, year) covered?  A year absent
from the keys is uncovered for every state. -/
def covered (states : List String) (state : String) (year : Nat) : Bool :=
  match cdl_year_states states year with
  | some stateList => decide (state ∈ stateList)
  | none => false

/-- C6: the Coverage Table reports every configured state covered for each
year from 2008 through 2024; for the historical override years 1997-2007 a
state is covered exactly when it is explicitly listed; and every year
outside 1997..2024 (i.e. not present as a key) is uncovered for all
states. -/
theorem coverage_table_shape (states : List String) (state : String)
    (year : Nat) :
    ((2008 ≤ year ∧ year ≤ 2024) → state ∈ states →
        covered states state year = true)
      ∧ ((1997 ≤ year ∧ year ≤ 2007) →
          (covered states state year = true ↔ state ∈ historicalStates year))
      ∧ ((year < 1997 ∨ 2024 < year) → covered states state year = false) := by
  refine ⟨?_, ?_, ?_⟩
  · intro hy hmem
    unfold covered cdl_year_states
    rw [if_pos hy]
    simpa using hmem
  · intro hy
    unfold covered cdl_year_states
    rw [if_neg (by omega), if_pos hy]
    simp
  · intro hy
    unfold covered cdl_year_states
    rw [if_neg (by omega), if_neg (by omega)]

/-- Witness for C6: AZ is covered in 2010 when configured; ND coverage in
1997 matches the explicit list; 1996 is uncovered. -/
theorem coverage_table_shape_witness :
    covered ["AZ", "CA"] "AZ" 2010 = true
      ∧ (covered ["AZ", "CA"] "ND" 1997 = true ↔ "ND" ∈ historicalStates 1997)
      ∧ covered ["AZ", "CA"] "AZ" 1996 = false :=
  ⟨(coverage_table_shape ["AZ", "CA"] "AZ" 2010).1 (by omega) (by decide),
   (coverage_table_shape ["AZ", "CA"] "ND" 1997).2.1 (by omega),
   (coverage_table_shape ["AZ", "CA"] "AZ" 1996).2.2 (by omega)⟩

/-- First-match lookup in a list of (IN, OUT) pairs. -/
def lookupPairs : List (Nat × Nat) → Nat → Option Nat
  | [], _ => none
  | (a, b) :: rest, k => if a = k then some b else lookupPairs rest k

/-- The remap table after default filling
(`export_field_crop_type_by_state.py`, lines 122-126):
`dict(zip(remap_df.IN, remap_df.OUT))` (later rows win, hence the lookup in
the reversed pair list) extended so that every code in 1..255 absent from
the authored pairs maps to itself. -/
def cdl_annual_remap (authored : List (Nat × Nat)) (k : Nat) : Option Nat :=
  match lookupPairs authored.reverse k with
  | some v => some v
  | none => if 1 ≤ k ∧ k ≤ 255 then some k else none

/-- A key none of whose pairs mention it looks up to `none`. -/
theorem lookupPairs_eq_none (l : List (Nat × Nat)) (k : Nat)
    (h : ∀ p ∈ l, p.1 ≠ k) : lookupPairs l k = none := by
  induction l with
  | nil => rfl
  | cons hd tl ih =>
      unfold lookupPairs
      rw [if_neg (h hd (List.mem_cons_self hd tl))]
      exact ih (fun p hp => h p (List.mem_cons_of_mem hd hp))

/-- C7: after default filling the remap table is total on 1..255 — every
code in that range has exactly one outgoing mapping (the lookup returns a
value) — and every code not present among the authored pairs maps to
itself. -/
theorem remap_total_identity_default (authored : List (Nat × Nat)) (k : Nat)
    (h1 : 1 ≤ k) (h2 : k ≤ 255) :
    (cdl_annual_remap authored k).isSome = true
      ∧ ((∀ p ∈ authored, p.1 ≠ k) → cdl_annual_remap authored k = some k) := by
  constructor
  · unfold cdl_annual_remap
    cases hl : lookupPairs authored.reverse k with
    | some v => simp
    | none => simp [h1, h2]
  · intro habs
    have hl : lookupPairs authored.reverse k = none :=
      lookupPairs_eq_none authored.reverse k
        (fun p hp => habs p (List.mem_reverse.mp hp))
    unfold cdl_annual_remap
    rw [hl]
    simp [h1, h2]

/-- Witness for C7: with a single authored pair (36, 37), code 5 is in the
domain and maps to itself. -/
theorem remap_total_identity_default_witness :
    (cdl_annual_remap [(36, 37)] 5).isSome = true
      ∧ ((∀ p ∈ [((36 : Nat), (37 : Nat))], p.1 ≠ 5) →
          cdl_annual_remap [(36, 37)] 5 = some 5) :=
  remap_total_identity_default [(36, 37)] 5 (by omega) (by omega)

/-- Per-character ASCII lowercasing of a string, the effect of Python's
`str.lower()` on the state/product/year export identifiers. -/
def strLower (s : String) : String := ⟨s.data.map Char.toLower⟩

/-- Boolean string-suffix test (`s` ends with `t`). -/
def strEndsWith (s t : String) : Bool :=
  t.data.reverse.isPrefixOf s.data.reverse

/-- `cdl_coll_id = 'USDA/NASS/CDL'`
(`export_field_crop_type_by_state.py`, line 47). -/
def cdl_coll_id : String := "USDA/NASS/CDL"

/-- `cdl_year_min = 2008` (line 51). -/
def cdl_year_min : Nat := 2008

/-- `cdl_year_max = 2024` (line 52). -/
def cdl_year_max : Nat := 2024

/-- The resolved CDL source for one (state, year): the image id, whether the
image was remapped through the annual-crop remap table (`.remap(cdl_remap_in,
cdl_remap_out)`), and the `crop_source` provenance string. -/
structure CdlSource where
  imgId : String
  remapped : Bool
  cropSource : String
deriving DecidableEq, Repr

/-- The CDL source-selection `if/elif` chain
(`export_field_crop_type_by_state.py`, lines 207-258): post-`cdl_year_max`
years use the remapped newest image; pre-`cdl_year_min` years not covered
for the state use the remapped oldest image (both with provenance
`'<img id> - remapped annual crops'`); 2005 and 2007 select the split `a`/`b`
halves, raising for the invalid ID-2005 and CA-2007 combinations; every
other year uses its own image verbatim. -/
def selectCdlSource (coveredYears : List Nat) (state : String) (year : Nat) :
    Except String CdlSource :=
  if year > cdl_year_max then
    .ok ⟨cdl_coll_id ++ "/" ++ toString cdl_year_max, true,
         cdl_coll_id ++ "/" ++ toString cdl_year_max ++ " - remapped annual crops"⟩
  else if year < cdl_year_min ∧ ¬ (year ∈ coveredYears) then
    .ok ⟨cdl_coll_id ++ "/" ++ toString cdl_year_min, true,
         cdl_coll_id ++ "/" ++ toString cdl_year_min ++ " - remapped annual crops"⟩
  else if year = 2005 then
    if state = "ID" then .error "ID 2005 CDL image should not be used"
    else if state = "MS" then
      .ok ⟨cdl_coll_id ++ "/2005b", false, cdl_coll_id ++ "/2005b"⟩
    else .ok ⟨cdl_coll_id ++ "/2005a", false, cdl_coll_id ++ "/2005a"⟩
  else if year = 2007 then
    if state = "CA" then .error "CA 2007b CDL image should not be used"
    else .ok ⟨cdl_coll_id ++ "/2007a", false, cdl_coll_id ++ "/2007a"⟩
  else
    .ok ⟨cdl_coll_id ++ "/" ++ toString year, false,
         cdl_coll_id ++ "/" ++ toString year⟩

/-- C8: for every state, every covered-year list and every year strictly
after 2024, the Source Selector resolves to the newest native CDL image
remapped through the remap table, and the provenance string it produces ends
with "remapped annual crops". -/
theorem beyond_max_year_uses_remapped_newest (coveredYears : List Nat)
    (state : String) (year : Nat) (h : cdl_year_max < year) :
    selectCdlSource coveredYears state year
        = .ok ⟨"USDA/NASS/CDL/2024", true,
               "USDA/NASS/CDL/2024 - remapped annual crops"⟩
      ∧ strEndsWith "USDA/NASS/CDL/2024 - remapped annual crops"
          "remapped annual crops" = true := by
  constructor
  · unfold selectCdlSource
    rw [if_pos h]
    rfl
  · decide

/-- Witness for C8 at year `cdl_year_max + 3 = 2027`. -/
theorem beyond_max_year_uses_remapped_newest_witness :
    selectCdlSource [] "NM" 2027
        = .ok ⟨"USDA/NASS/CDL/2024", true,
               "USDA/NASS/CDL/2024 - remapped annual crops"⟩
      ∧ strEndsWith "USDA/NASS/CDL/2024 - remapped annual crops"
          "remapped annual crops" = true :=
  beyond_max_year_uses_remapped_newest [] "NM" 2027 (by decide)

/-- The export identifier `f'{state}_cdl_{year}'.lower()` (line 176). -/
def cdlExportId (state : String) (year : Nat) : String :=
  strLower (state ++ "_cdl_" ++ toString year)

/-- What the CDL export loop does for one (state, year) besides cancelling:
nothing, submits a job built from the selected source, or raises. -/
inductive ExportAction where
  | skipped
  | submitted (imgId : String) (cropSource : String)
  | fatal (msg : String)
deriving DecidableEq, Repr

/-- The outcome of the CDL export loop for one (state, year): whether a
cancel call was issued for the identifier, and the action taken. -/
structure ExportOutcome where
  cancelled : Bool
  action : ExportAction
deriving DecidableEq, Repr

/-- The years of the user selection for which (state, year) is covered:
`cdl_state_years[state]` (`export_field_crop_type_by_state.py`,
lines 107-117). -/
def cdlStateYears (states : List String) (years : List Nat)
    (state : String) : List Nat :=
  years.filter (fun year => covered states state year)

/-- The body of the CDL export loops
(`export_field_crop_type_by_state.py`, lines 164-312) for one
(state, year): California is excluded from the CDL pass (line 167); pairs
not in `cdl_state_years` are skipped (lines 178-181); with overwrite on, an
active task with this identifier is cancelled and the job is resubmitted
(lines 184-192); with overwrite off, an active task or an existing
`<id>.csv` in the bucket file list causes a skip (lines 193-199); otherwise
the source is selected (raising on the known-invalid pairs) and the export
task is started. -/
def cdlExportStep (states : List String) (years : List Nat)
    (overwrite : Bool) (tasks bucketFiles : List String)
    (state : String) (year : Nat) : ExportOutcome :=
  if state = "CA" then ⟨false, .skipped⟩
  else if ¬ (state ∈ states) then ⟨false, .skipped⟩
  else if ¬ (year ∈ cdlStateYears states years state) then ⟨false, .skipped⟩
  else
    let exportId := cdlExportId state year
    if overwrite then
      let didCancel := decide (exportId ∈ tasks)
      match selectCdlSource (cdlStateYears states years state) state year with
      | .error msg => ⟨didCancel, .fatal msg⟩
      | .ok src => ⟨didCancel, .submitted src.imgId src.cropSource⟩
    else
      if exportId ∈ tasks then ⟨false, .skipped⟩
      else if (exportId ++ ".csv") ∈ bucketFiles then ⟨false, .skipped⟩
      else
        match selectCdlSource (cdlStateYears states years state) state year with
        | .error msg => ⟨false, .fatal msg⟩
        | .ok src => ⟨false, .submitted src.imgId src.cropSource⟩

/-- C4 counterexample: a run selecting exactly Idaho and 2005 does not
raise for the (ID, 2005) pair — the coverage filter removes the pair before
source selection ever runs, and the step ends as a silent skip with no
fatal action. -/
theorem invalid_pair_silently_skipped :
    cdlExportStep ["ID"] [2005] false [] [] "ID" 2005
        = ⟨false, ExportAction.skipped⟩
      ∧ ∀ msg, (cdlExportStep ["ID"] [2005] false [] [] "ID" 2005).action
          ≠ ExportAction.fatal msg := by
  refine ⟨by decide, ?_⟩
  intro msg
  have h : cdlExportStep ["ID"] [2005] false [] [] "ID" 2005
      = ⟨false, ExportAction.skipped⟩ := by decide
  rw [h]
  simp

/-- C4 (amended): the (ID, 2005) and (CA, 2007) pairs are silently skipped
by the export step for every selection, flag state, task snapshot and bucket
listing — ID is never listed for 2005 in the coverage table and California
is excluded from the CDL pass — so the defensive `raise` statements guarding
those pairs are unreachable; the source selector itself would raise only if
such a pair reached it as a covered year. -/
theorem invalid_pair_skip_universal (states : List String) (years : List Nat)
    (overwrite : Bool) (tasks bucketFiles : List String) :
    (cdlExportStep states years overwrite tasks bucketFiles "ID" 2005).action
        = ExportAction.skipped
      ∧ (cdlExportStep states years overwrite tasks bucketFiles "CA" 2007).action
        = ExportAction.skipped
      ∧ selectCdlSource [2005] "ID" 2005
        = .error "ID 2005 CDL image should not be used"
      ∧ selectCdlSource [2007] "CA" 2007
        = .error "CA 2007b CDL image should not be used" := by
  refine ⟨?_, ?_, rfl, rfl⟩
  · have hnc : ¬ ((2005 : Nat) ∈ cdlStateYears states years "ID") := by
      intro hmem
      rcases List.mem_filter.mp hmem with ⟨-, hcov⟩
      have : covered states "ID" 2005 = false := by
        unfold covered cdl_year_states
        rw [if_neg (by omega), if_pos (by omega)]
        decide
      rw [this] at hcov
      exact Bool.false_ne_true hcov
    unfold cdlExportStep
    by_cases hin : "ID" ∈ states
    · rw [if_neg (by decide), if_neg (by simpa using hin), if_pos hnc]
    · rw [if_neg (by decide), if_pos (by simpa using hin)]
  · unfold cdlExportStep
    rw [if_pos rfl]

/-- C5: with overwrite disabled, a (state, year) whose export identifier is
in the cached active-task snapshot — or whose `<identifier>.csv` output is
already in the bucket file list — causes neither a cancel call nor a new
submission: the step's cancel flag is false and its action is never a
submission. -/
theorem active_task_or_output_skipped (states : List String) (years : List Nat)
    (tasks bucketFiles : List String) (state : String) (year : Nat)
    (h : cdlExportId state year ∈ tasks
        ∨ (cdlExportId state year ++ ".csv") ∈ bucketFiles) :
    (cdlExportStep states years false tasks bucketFiles state year).cancelled
        = false
      ∧ ∀ imgId cropSource,
          (cdlExportStep states years false tasks bucketFiles state year).action
            ≠ ExportAction.submitted imgId cropSource := by
  simp only [cdlExportStep]
  split_ifs with h1 h2 h3 h4 h5 h6 <;>
    first
      | exact ⟨rfl, by simp⟩
      | exact h4.elim
      | (rcases h with hm | hm
         · exact absurd hm h5
         · exact absurd hm h6)

/-- Witness for C5: an active task `nm_cdl_2010` blocks resubmission and is
not cancelled when overwrite is off. -/
theorem active_task_or_output_skipped_witness :
    (cdlExportStep ["NM"] [2010] false ["nm_cdl_2010"] [] "NM" 2010).cancelled
        = false
      ∧ ∀ imgId cropSource,
          (cdlExportStep ["NM"] [2010] false ["nm_cdl_2010"] [] "NM" 2010).action
            ≠ ExportAction.submitted imgId cropSource :=
  active_task_or_output_skipped ["NM"] [2010] ["nm_cdl_2010"] [] "NM" 2010
    (Or.inl (by decide))

end CropAssets
